import Mathlib

/-!
Verification model of `pywemo/subscribe.py` (module to listen for wemo events)
and the port-scanning startup logic, embedded shallowly in Lean.

Python dicts are modelled as association lists with unique keys (`alookup`,
`aset`, `aerase`); the scheduler's pending-timer handles are modelled by the
`_events` map exactly as the source keeps them (serial number -> url_fn ->
pending event).  Network I/O performed by `requests.request` is modelled by an
oracle: a list of `NetResult` values consumed one per outbound request.
External side effects (requests issued, `device.reconnect_with_device()`,
`sched.enter`) are recorded as an `Action` trace.
-/

namespace PyWemo

/-! ### Association-list maps (Python `dict` with unique keys) -/

def alookup {κ α : Type} [DecidableEq κ] : List (κ × α) → κ → Option α
  | [], _ => none
  | (k, v) :: t, k2 => if k2 = k then some v else alookup t k2

def alookupD {κ α : Type} [DecidableEq κ] (l : List (κ × α)) (k : κ) (d : α) : α :=
  (alookup l k).getD d

def aset {κ α : Type} [DecidableEq κ] : List (κ × α) → κ → α → List (κ × α)
  | [], k, v => [(k, v)]
  | (k2, v2) :: t, k, v => if k2 = k then (k, v) :: t else (k2, v2) :: aset t k v

def aerase {κ α : Type} [DecidableEq κ] : List (κ × α) → κ → List (κ × α)
  | [], _ => []
  | (k2, v2) :: t, k => if k2 = k then aerase t k else (k2, v2) :: aerase t k

/-- Well-formedness of a dict model: keys occur at most once. -/
def AWF {κ α : Type} (l : List (κ × α)) : Prop := (l.map Prod.fst).Nodup

/-! ### String helpers mirroring the Python string operations used by the source

All are structurally recursive so concrete instances evaluate in the kernel.
-/

/-- `p.isPrefixOf l` on character lists (used to find pattern occurrences). -/
def listStartsWith : List Char → List Char → Bool
  | [], _ => true
  | _ :: _, [] => false
  | p :: ps, c :: cs => p == c && listStartsWith ps cs

/-- One fuel-indexed pass of Python `str.replace(old, new)`: replaces every
non-overlapping occurrence of `pat`, scanning left to right.  The fuel is the
length of the input, which suffices because each step consumes at least one
character when `pat` is nonempty (Python's empty-pattern behaviour is not
needed by the source, which only replaces `"Second-"`). -/
def pyReplaceFuel (pat rep : List Char) : Nat → List Char → List Char
  | 0, l => l
  | _ + 1, [] => []
  | f + 1, c :: rest =>
    if !pat.isEmpty && listStartsWith pat (c :: rest) then
      rep ++ pyReplaceFuel pat rep f (List.drop (pat.length - 1) rest)
    else
      c :: pyReplaceFuel pat rep f rest

/-- Python `s.replace(old, new)`. -/
def pyReplace (s pat rep : String) : String :=
  String.mk (pyReplaceFuel pat.data rep.data s.data.length s.data)

def digitVal : Char → Option Nat := fun c =>
  if '0' ≤ c ∧ c ≤ '9' then some (c.toNat - '0'.toNat) else none

def digitsToNatAux : List Char → Nat → Option Nat
  | [], acc => some acc
  | c :: rest, acc =>
    match digitVal c with
    | some d => digitsToNatAux rest (acc * 10 + d)
    | none => none

def digitsToNat : List Char → Option Nat
  | [] => none
  | l => digitsToNatAux l 0

/-- Python `int(s)` on a decimal string: optional sign followed by at least one
digit.  (Python additionally strips surrounding whitespace and allows `_`
separators; those inputs do not occur in the claims and are not modelled.) -/
def pyToInt : String → Option Int := fun s =>
  match s.data with
  | '-' :: ds => (digitsToNat ds).map (fun n => -(n : Int))
  | '+' :: ds => (digitsToNat ds).map (fun n => (n : Int))
  | ds => (digitsToNat ds).map (fun n => (n : Int))

/-- Python `int(value.replace('Second-', ''))` from
`SubscriptionRegistry._url_resubscribe`; `none` models the uncaught
`ValueError`. -/
def parseTimeout (s : String) : Option Int := pyToInt (pyReplace s "Second-" "")

/-- Python `int(timeout * 0.75)`: the float product is exact for every
`|timeout| < 2 ^ 51`, and `int` truncates toward zero, so this is truncating
division of `3 * timeout` by `4` (`Int.div` is T-division). -/
def pyTrunc075 (n : Int) : Int := Int.tdiv (3 * n) 4

/-- Lower-casing used to compare HTTP header names case-insensitively. -/
def lowerStr (s : String) : String := String.mk (s.data.map Char.toLower)

/-- Python `s.endswith(suffix)`. -/
def pyEndsWith (s suf : String) : Bool := listStartsWith suf.data.reverse s.data.reverse

def lastComponentAux : List Char → List Char → List Char
  | [], acc => acc.reverse
  | c :: rest, acc => if c == '/' then lastComponentAux rest [] else lastComponentAux rest (c :: acc)

/-- Python `url_fn(device).rsplit('/')[-1]`: the last `/`-separated component,
i.e. everything after the final `/` (the whole string when it has none). -/
def lastPathComponent (s : String) : String := String.mk (lastComponentAux s.data [])

/-- Python truthiness of an optional string (`None` and `''` are falsy). -/
def pyTruthyStr : Option String → Bool
  | none => false
  | some s => !s.isEmpty

/-! ### Data model (`SubscriptionRegistry` state, from `subscribe.py`) -/

/-- What the registry consumes from a `Device`: `hasInsight` models
`hasattr(device, 'insight')`, the URLs model `device.basicevent.eventSubURL`
and `device.insight.eventSubURL`. -/
structure Device where
  serialnumber : String
  host : String
  basicEventSubURL : String
  insightEventSubURL : String
  hasInsight : Bool
  rediscoveryEnabled : Bool
deriving DecidableEq, Repr

/-- Identity of a subscribe-URL resolver function: the `_events` inner dict is
keyed on the `url_fn` function object, of which exactly two exist
(`_basic_event_subscription_url`, `_insight_event_subscription_url`). -/
inductive UrlFn where
  | basic
  | insight
deriving DecidableEq, Repr

def UrlFn.url : UrlFn → Device → String
  | .basic, d => d.basicEventSubURL
  | .insight, d => d.insightEventSubURL

/-- A pending `sched.Event` handle as stored in `_events[serial][url_fn]`:
the delay it was entered with and the `sid=`/`retry=` kwargs of the scheduled
`_resubscribe` call. -/
structure TimerEntry where
  delay : Int
  sid : Option String
  retry : Nat
deriving DecidableEq, Repr

abbrev EventsMap := List (String × List (UrlFn × TimerEntry))

/-- Mutable state of a `SubscriptionRegistry`:
`devices` (host -> device), `_callbacks` (serial -> ordered
(type_filter, callback) pairs; callbacks are identified by opaque `Nat` ids),
and `_events` (serial -> url_fn -> pending timer handle). -/
structure RegState where
  devices : List (String × Device)
  callbacks : List (String × List (Option String × Nat))
  events : EventsMap
deriving DecidableEq, Repr

/-- `url_fn in self._events.get(device.serialnumber, {})`. -/
def hasTimerEntry (ev : EventsMap) (serial : String) (fn : UrlFn) : Bool :=
  (alookup (alookupD ev serial []) fn).isSome

/-- `SubscriptionRegistry._schedule`: stores the handle of a newly entered
scheduler event in `_events[serial][url_fn]`.  The `none` branch would be a
Python `KeyError`; it is unreachable because every call site either just
initialised `_events[serial]` (`register`) or checked membership first. -/
def schedule (ev : EventsMap) (serial : String) (fn : UrlFn) (e : TimerEntry) : EventsMap :=
  match alookup ev serial with
  | some inner => aset ev serial (aset inner fn e)
  | none => ev

/-- `SubscriptionRegistry.register` (the `if not device` guard is dropped: the
model has no null device).  Schedules the basic-event subscription at delay 0
and, when the device has an `insight` attribute, the insight subscription. -/
def register (st : RegState) (d : Device) : RegState :=
  let ev0 := aset st.events d.serialnumber []
  let ev1 := schedule ev0 d.serialnumber .basic ⟨0, none, 0⟩
  let ev2 := if d.hasInsight then schedule ev1 d.serialnumber .insight ⟨0, none, 0⟩ else ev1
  { devices := aset st.devices d.host d, callbacks := st.callbacks, events := ev2 }

/-- `SubscriptionRegistry.unregister`.  The Boolean records whether the call
raised: `self._callbacks[serial]` is a `defaultdict` access (never raises,
creates-then-deletes), `self._events.get(serial, None)` is guarded, but
`self.devices[device.host]` raises `KeyError` when the host is absent — after
the callback and timer entries were already removed. -/
def unregister (st : RegState) (d : Device) : Bool × RegState :=
  let cbs := aerase st.callbacks d.serialnumber
  let ev := aerase st.events d.serialnumber
  match alookup st.devices d.host with
  | some _ => (false, { devices := aerase st.devices d.host, callbacks := cbs, events := ev })
  | none => (true, { devices := st.devices, callbacks := cbs, events := ev })

/-- One callback invocation recorded by `event`: (callback id, device, type_,
value).  Values are `Option String` because an XML element's `.text` can be
`None`. -/
abbrev Invocation := Nat × Device × String × Option String

/-- The loop body of `SubscriptionRegistry.event`:
`if type_filter is None or type_ == type_filter: callback(device, type_, value)`. -/
def dispatchList : List (Option String × Nat) → Device → String → Option String → List Invocation
  | [], _, _, _ => []
  | (tf, cb) :: rest, d, ty, v =>
    match tf with
    | none => (cb, d, ty, v) :: dispatchList rest d ty v
    | some f => if ty = f then (cb, d, ty, v) :: dispatchList rest d ty v
                else dispatchList rest d ty v

/-- `SubscriptionRegistry.event`: iterates
`self._callbacks.get(device.serialnumber, ())` and returns the invocations it
performs, in order. -/
def eventCallbacks (st : RegState) (d : Device) (ty : String) (v : Option String) :
    List Invocation :=
  dispatchList (alookupD st.callbacks d.serialnumber []) d ty v

/-- `SubscriptionRegistry.on`: `self._callbacks[device.serialnumber].append(
(type_filter, callback))` (a `defaultdict(list)` access). -/
def onCallback (st : RegState) (d : Device) (tf : Option String) (cb : Nat) : RegState :=
  { st with
    callbacks :=
      aset st.callbacks d.serialnumber
        (alookupD st.callbacks d.serialnumber [] ++ [(tf, cb)]) }

/-! ### The resubscription protocol (`_resubscribe` / `_url_resubscribe`) -/

/-- Environment for building the `CALLBACK` header: `get_ip_address(host=...)`
(external, modelled as a given local address) and `self.port`. -/
structure Net where
  localIp : String
  port : Nat
deriving DecidableEq, Repr

/-- The outbound SUBSCRIBE headers dict built by `_resubscribe`:
always `TIMEOUT: Second-300`; `SID` when a sid is held (`sid is not None`),
otherwise `CALLBACK` and `NT: upnp:event`. -/
structure SubHeaders where
  timeout : String
  sid : Option String
  callback : Option String
  nt : Option String
deriving DecidableEq, Repr

def mkHeaders (net : Net) (d : Device) (fn : UrlFn) (sid : Option String) : SubHeaders :=
  match sid with
  | some s => { timeout := "Second-300", sid := some s, callback := none, nt := none }
  | none =>
    { timeout := "Second-300", sid := none,
      callback := some ("<http://" ++ net.localIp ++ ":" ++ toString net.port ++ "/"
        ++ lastPathComponent (fn.url d) ++ ">"),
      nt := some "upnp:event" }

/-- Result of one `requests.request` call: a transport error
(`requests.exceptions.RequestException`) or a response with its status code
and the (case-insensitively looked up) `TIMEOUT` and `SID` headers. -/
inductive NetResult where
  | err
  | resp (status : Nat) (timeoutHdr : Option String) (sidHdr : Option String)
deriving DecidableEq, Repr

/-- Consume the next oracle entry; an exhausted oracle behaves as a transport
error. -/
def takeNet : List NetResult → NetResult × List NetResult
  | [] => (.err, [])
  | r :: t => (r, t)

/-- Externally visible effects of a `_resubscribe` run, in program order. -/
inductive Action where
  | subscribe (url : String) (hdrs : SubHeaders)
  | unsubscribe (url : String) (sid : String)
  | reconnect
  | schedEnter (serial : String) (fn : UrlFn) (e : TimerEntry)
deriving DecidableEq, Repr

def Action.isSubscribe : Action → Bool
  | .subscribe _ _ => true
  | _ => false

def Action.isUnsubscribe : Action → Bool
  | .unsubscribe _ _ => true
  | _ => false

def Action.isSchedEnter : Action → Bool
  | .schedEnter _ _ _ => true
  | _ => false

/-- How `_url_resubscribe` terminates, as seen by its caller `_resubscribe`:
normal return, a `requests` transport exception (caught by `_resubscribe`),
or the `ValueError` from `int(...)` (caught nowhere). -/
inductive Outcome where
  | ok
  | netError
  | parseError
deriving DecidableEq, Repr

structure InnerResult where
  actions : List Action
  events : EventsMap
  outcome : Outcome
deriving DecidableEq, Repr

/-- Result of a `_resubscribe` run; `raised` records an exception escaping the
call (only the `ValueError` from a malformed `TIMEOUT` header can). -/
structure RunResult where
  actions : List Action
  events : EventsMap
  raised : Bool
deriving DecidableEq, Repr

/-- `response.headers.get(name, default)` for an optional-valued default
(`sid = response.headers.get('sid', sid)`). -/
def headerGetD (h : Option String) (dflt : Option String) : Option String :=
  match h with
  | some s => some s
  | none => dflt

/-- `SubscriptionRegistry._url_resubscribe`, with the recursive
`self._resubscribe(device, url_fn)` call of the 412 branch abstracted as
`fresh` (it is re-entered with no SID and retry 0). -/
def urlResubscribeWith (fresh : EventsMap → List NetResult → RunResult)
    (ev : EventsMap) (d : Device) (fn : UrlFn) (hdrs : SubHeaders) (sid : Option String)
    (oracle : List NetResult) : InnerResult :=
  let url := fn.url d
  let t1 := takeNet oracle
  match t1.1 with
  | .err => { actions := [.subscribe url hdrs], events := ev, outcome := .netError }
  | .resp status thdr shdr =>
    if status = 412 ∧ pyTruthyStr sid = true then
      -- Invalid subscription id: UNSUBSCRIBE the stale sid, then start over.
      let t2 := takeNet t1.2
      match t2.1 with
      | .err =>
        -- the UNSUBSCRIBE request itself raised; caught by _resubscribe's
        -- except handler like any other RequestException
        { actions := [.subscribe url hdrs, .unsubscribe url (sid.getD "")],
          events := ev, outcome := .netError }
      | .resp _ _ _ =>
        let inner := fresh ev t2.2
        { actions := [.subscribe url hdrs, .unsubscribe url (sid.getD "")] ++ inner.actions,
          events := inner.events,
          outcome := if inner.raised then .parseError else .ok }
    else
      match parseTimeout (thdr.getD hdrs.timeout) with
      | none => { actions := [.subscribe url hdrs], events := ev, outcome := .parseError }
      | some t =>
        let sid2 := headerGetD shdr sid
        if hasTimerEntry ev d.serialnumber fn then
          let e : TimerEntry := { delay := pyTrunc075 t, sid := sid2, retry := 0 }
          { actions := [.subscribe url hdrs, .schedEnter d.serialnumber fn e],
            events := schedule ev d.serialnumber fn e, outcome := .ok }
        else
          { actions := [.subscribe url hdrs], events := ev, outcome := .ok }

/-- `SubscriptionRegistry._resubscribe`, fuel-indexed so the (at most one
level deep) mutual recursion through the 412 branch is structural.  Fuel 2
suffices for every execution: the recursive call holds no SID, so its own 412
branch cannot recurse again. -/
def resubscribeFuel : Nat → Net → EventsMap → Device → UrlFn → Option String → Nat →
    List NetResult → RunResult
  | 0, _, ev, _, _, _, _, _ => { actions := [], events := ev, raised := true }
  | f + 1, net, ev, d, fn, sid, retry, oracle =>
    let hdrs := mkHeaders net d fn sid
    let inner := urlResubscribeWith (fun ev2 o2 => resubscribeFuel f net ev2 d fn none 0 o2)
      ev d fn hdrs sid oracle
    match inner.outcome with
    | .ok => { actions := inner.actions, events := inner.events, raised := false }
    | .parseError => { actions := inner.actions, events := inner.events, raised := true }
    | .netError =>
      let retry2 := retry + 1
      let recon : List Action :=
        if retry2 > 1 ∧ d.rediscoveryEnabled = true then [.reconnect] else []
      if hasTimerEntry inner.events d.serialnumber fn then
        let e : TimerEntry := { delay := 60, sid := sid, retry := retry2 }
        { actions := inner.actions ++ recon ++ [.schedEnter d.serialnumber fn e],
          events := schedule inner.events d.serialnumber fn e, raised := false }
      else
        { actions := inner.actions ++ recon, events := inner.events, raised := false }

/-- Entry point for one `_resubscribe(device, url_fn, sid, retry)` call. -/
def resubscribe (net : Net) (ev : EventsMap) (d : Device) (fn : UrlFn)
    (sid : Option String) (retry : Nat) (oracle : List NetResult) : RunResult :=
  resubscribeFuel 2 net ev d fn sid retry oracle

/-- A concrete device used by witnesses and counterexamples. -/
def exDevice : Device :=
  { serialnumber := "221517K0101769"
    host := "192.168.1.2"
    basicEventSubURL := "http://192.168.1.2:49153/upnp/event/basicevent1"
    insightEventSubURL := "http://192.168.1.2:49153/upnp/event/insight1"
    hasInsight := true
    rediscoveryEnabled := true }

def exNet : Net := { localIp := "192.168.1.5", port := 8989 }

/-- Events map holding one pending basic-event timer for `exDevice`. -/
def exEvents : EventsMap := [(exDevice.serialnumber, [(UrlFn.basic, ⟨0, none, 0⟩)])]

/-- The effect of one `_resubscribe` attempt whose SUBSCRIBE raises a
transport error (shared shape for C4 and the error half of C5). -/
def retryRunResult (ev : EventsMap) (d : Device) (fn : UrlFn)
    (sid : Option String) (r : Nat) (prefixActs : List Action) : RunResult :=
  { actions := prefixActs
      ++ (if r + 1 > 1 ∧ d.rediscoveryEnabled = true then [.reconnect] else [])
      ++ (if hasTimerEntry ev d.serialnumber fn then
            [.schedEnter d.serialnumber fn ⟨60, sid, r + 1⟩] else []),
    events := if hasTimerEntry ev d.serialnumber fn then
        schedule ev d.serialnumber fn ⟨60, sid, r + 1⟩ else ev,
    raised := false }

/-! ### HTTP request handlers (`RequestHandler`) -/

/-- An lxml element tree: qualified tag, `.text`, and child elements.
`et.fromstring` itself is external; a request body is modelled by its parse
result (`none` = `XMLSyntaxError` raised). -/
inductive XmlNode where
  | elem (tag : String) (text : Option String) (children : List XmlNode)

def XmlNode.tag : XmlNode → String
  | .elem t _ _ => t

def XmlNode.text : XmlNode → Option String
  | .elem _ t _ => t

def XmlNode.children : XmlNode → List XmlNode
  | .elem _ _ c => c

/-- lxml's qualified-name prefix for the UPnP event namespace
(`NS` in the source). -/
def NS : String := "\x7burn:schemas-upnp-org:event-1-0\x7d"

def EVENT_TYPE_LONG_PRESS : String := "LongPress"

/-- `doc.find('.//BinaryState')`-style search: first element in document order
among the descendants of the nodes in the list (each node checked before its
own subtree). -/
def findDescList (tag : String) : List XmlNode → Option XmlNode
  | [] => none
  | XmlNode.elem t x cs :: rest =>
    if t = tag then some (XmlNode.elem t x cs)
    else
      match findDescList tag cs with
      | some r => some r
      | none => findDescList tag rest

structure HttpResponseMsg where
  status : Nat
  headers : List (String × String)
  body : String
deriving DecidableEq, Repr

def RESPONSE_SUCCESS : String := "<html><body><h1>200 OK</h1></body></html>"

def RESPONSE_NOT_FOUND : String := "<html><body><h1>404 Not Found</h1></body></html>"

/-- `VIRTUAL_DEVICE_UDN` is imported from `ouimeaux_device/api/long_press.py`,
which is outside the given sources; modelled from the spec as the well-known
identifier of the singleton virtual device. -/
def VIRTUAL_DEVICE_UDN : String := "uuid:pywemo-virtual-device"

/-- The fixed `setup.xml` description document (with the UDN interpolated as
in the source's f-string). -/
def VIRTUAL_SETUP_XML : String :=
  "<?xml version=\"1.0\"?>\n<root xmlns=\"urn:Belkin:device-1-0\">\n  <specVersion>\n    <major>1</major>\n    <minor>0</minor>\n  </specVersion>\n  <device>\n    <deviceType>urn:Belkin:device:switch:1</deviceType>\n    <friendlyName>pywemo virtual device</friendlyName>\n    <manufacturer>pywemo</manufacturer>\n    <manufacturerURL>https://github.com/pavoni/pywemo</manufacturerURL>\n    <modelDescription>pywemo virtual device</modelDescription>\n    <modelName>LightSwitch</modelName>\n    <modelNumber>1.0</modelNumber>\n    <hwVersion>v1</hwVersion>\n    <modelURL>http://www.belkin.com/plugin/</modelURL>\n    <serialNumber>VirtualDevice</serialNumber>\n    <UDN>" ++ VIRTUAL_DEVICE_UDN ++ "</UDN>\n    <binaryState>0</binaryState>\n    <serviceList>\n      <service>\n        <serviceType>urn:Belkin:service:basicevent:1</serviceType>\n        <serviceId>urn:Belkin:serviceId:basicevent1</serviceId>\n        <controlURL>/upnp/control/basicevent1</controlURL>\n        <eventSubURL>/upnp/event/basicevent1</eventSubURL>\n        <SCPDURL>/eventservice.xml</SCPDURL>\n      </service>\n    </serviceList>\n</device>\n</root>"

/-- `RequestHandler._send_response`. -/
def sendResponse (code : Nat) (body : String) (contentType : String) : HttpResponseMsg :=
  { status := code
    headers := [("Content-Type", contentType),
                ("Content-Length", toString body.length),
                ("Connection", "close")]
    body := body }

/-- An `event(device, type_, value)` call performed by a handler. -/
abbrev EventCall := Device × String × Option String

/-- `RequestHandler.do_NOTIFY`.  Returns the response written (`none` when an
exception escaped the handler, so that no response is sent) and the `event()`
calls made.  A body that fails to parse makes `et.fromstring` raise inside
`_get_xml_from_http_body`; nothing catches it, so the final
`_send_response(200, ...)` line is never reached. -/
def doNOTIFY (devices : List (String × Device)) (senderIp : String)
    (body : Option XmlNode) : Option HttpResponseMsg × List EventCall :=
  match alookup devices senderIp with
  | none => (some (sendResponse 200 RESPONSE_SUCCESS "text/html"), [])
  | some device =>
    match body with
    | none => (none, [])
    | some doc =>
      let props := doc.children.filter (fun c => c.tag == NS ++ "property")
      let calls := (props.map (fun p => p.children.map
        (fun c => (device, c.tag, c.text)))).flatten
      (some (sendResponse 200 RESPONSE_SUCCESS "text/html"), calls)

/-- `RequestHandler.do_POST`. -/
def doPOST (devices : List (String × Device)) (path senderIp : String)
    (body : Option XmlNode) : Option HttpResponseMsg × List EventCall :=
  if pyEndsWith path "/upnp/control/basicevent1" then
    match alookup devices senderIp with
    | none => (some (sendResponse 200 RESPONSE_SUCCESS "text/html"), [])
    | some device =>
      match body with
      | none => (none, [])
      | some doc =>
        match findDescList "BinaryState" doc.children with
        | none => (some (sendResponse 200 RESPONSE_SUCCESS "text/html"), [])
        | some el =>
          (some (sendResponse 200 RESPONSE_SUCCESS "text/html"),
           [(device, EVENT_TYPE_LONG_PRESS, el.text)])
  else (some (sendResponse 404 RESPONSE_NOT_FOUND "text/html"), [])

/-- `RequestHandler.do_GET`. -/
def doGET (path : String) : HttpResponseMsg :=
  if pyEndsWith path "/setup.xml" then sendResponse 200 VIRTUAL_SETUP_XML "text/xml"
  else sendResponse 404 RESPONSE_NOT_FOUND "text/html"

/-- `RequestHandler.do_SUBSCRIBE`: the matched path answers with hand-rolled
headers (note: no `Content-Type`). -/
def doSUBSCRIBE (path : String) : HttpResponseMsg :=
  if pyEndsWith path "/upnp/event/basicevent1" then
    { status := 200
      headers := [("CONTENT-LENGTH", "0"),
                  ("TIMEOUT", "Second-1801"),
                  ("SID", "uuid:a74b23d5-34b9-4f71-9f87-bed24353f304"),
                  ("Connection", "close")]
      body := "" }
  else sendResponse 404 RESPONSE_NOT_FOUND "text/html"

/-- Does the response carry a header with the given (lower-cased) name? -/
def hasHeaderCI (r : HttpResponseMsg) (nameLower : String) : Bool :=
  r.headers.any (fun p => lowerStr p.1 == nameLower)

/-! ### Listener startup (`_start_server` / `start`) -/

/-- The port-scanning loop of `_start_server`: `attempts` ports starting at
`port`; binding is modelled by the predicate `bindable`. -/
def scanPorts (bindable : Nat → Bool) : Nat → Nat → Option Nat
  | 0, _ => none
  | n + 1, port => if bindable port then some port else scanPorts bindable n (port + 1)

/-- `_start_server()`: `for i in range(0, 128): port = 8989 + i; try bind`. -/
def startServer (bindable : Nat → Bool) : Option Nat := scanPorts bindable 128 8989

inductive StartResult where
  | ok (port : Nat)
  | failed
deriving DecidableEq, Repr

/-- `SubscriptionRegistry.start()` up to the point where the HTTP server
exists or `SubscriptionRegistryFailed` is raised. -/
def startRegistry (bindable : Nat → Bool) : StartResult :=
  match startServer bindable with
  | some p => .ok p
  | none => .failed

/-! ### The timer-handle invariant (C6) -/

/-- At most one live timer handle per (serial number, endpoint) pair: the
outer dict has unique serial keys and every inner dict unique `url_fn`
keys. -/
def WFE (ev : EventsMap) : Prop := AWF ev ∧ ∀ p ∈ ev, AWF p.2

def respHasCLConn (r : HttpResponseMsg) : Bool :=
  hasHeaderCI r "content-length" && r.headers.contains ("Connection", "close")


theorem alookup_aset_self {κ α : Type} [DecidableEq κ] (l : List (κ × α)) (k : κ) (v : α) :
    alookup (aset l k v) k = some v := by
  induction l with
  | nil => simp [aset, alookup]
  | cons h t ih =>
    obtain ⟨k2, v2⟩ := h
    by_cases hk : k2 = k
    · simp [aset, hk, alookup]
    · simp [aset, hk, alookup, Ne.symm hk, ih]

theorem alookup_aset_ne {κ α : Type} [DecidableEq κ] (l : List (κ × α)) (k k2 : κ) (v : α)
    (h : k2 ≠ k) : alookup (aset l k v) k2 = alookup l k2 := by
  induction l with
  | nil => simp [aset, alookup, h]
  | cons hd t ih =>
    obtain ⟨k3, v3⟩ := hd
    by_cases hk : k3 = k
    · subst hk
      simp [aset, alookup, h, ih]
    · simp only [aset, if_neg hk, alookup]
      by_cases hk2 : k2 = k3
      · simp [hk2]
      · simp [hk2, ih]

theorem alookup_aerase_self {κ α : Type} [DecidableEq κ] (l : List (κ × α)) (k : κ) :
    alookup (aerase l k) k = none := by
  induction l with
  | nil => simp [aerase, alookup]
  | cons h t ih =>
    obtain ⟨k2, v2⟩ := h
    by_cases hk : k2 = k
    · simpa [aerase, hk] using ih
    · simp [aerase, hk, alookup, Ne.symm hk, ih]

theorem mem_aset {κ α : Type} [DecidableEq κ] {l : List (κ × α)} {k : κ} {v : α} {p : κ × α}
    (h : p ∈ aset l k v) : p ∈ l ∨ p = (k, v) := by
  induction l with
  | nil => simpa [aset] using h
  | cons hd t ih =>
    obtain ⟨k2, v2⟩ := hd
    by_cases hk : k2 = k
    · simp only [aset, if_pos hk, List.mem_cons] at h
      rcases h with h | h
      · right; exact h
      · left; simp [h]
    · simp only [aset, if_neg hk, List.mem_cons] at h
      rcases h with h | h
      · left; simp [h]
      · rcases ih h with h2 | h2
        · left; simp [h2]
        · right; exact h2

theorem alookup_mem {κ α : Type} [DecidableEq κ] {l : List (κ × α)} {k : κ} {v : α}
    (h : alookup l k = some v) : (k, v) ∈ l := by
  induction l with
  | nil => simp [alookup] at h
  | cons hd t ih =>
    obtain ⟨k2, v2⟩ := hd
    by_cases hk : k = k2
    · simp only [alookup, if_pos hk] at h
      subst hk
      simp only [List.mem_cons, Prod.mk.injEq, true_and]
      exact Or.inl (Option.some.inj h).symm
    · simp only [alookup, if_neg hk] at h
      exact List.mem_cons_of_mem _ (ih h)

theorem mem_keys_aset {κ α : Type} [DecidableEq κ] {l : List (κ × α)} {k a : κ} {v : α}
    (h : a ∈ (aset l k v).map Prod.fst) : a ∈ l.map Prod.fst ∨ a = k := by
  induction l with
  | nil => simpa [aset] using h
  | cons hd t ih =>
    obtain ⟨k2, v2⟩ := hd
    by_cases hk : k2 = k
    · simp only [aset, if_pos hk, List.map_cons, List.mem_cons] at h
      rcases h with h | h
      · right; exact h
      · left; simp [h]
    · simp only [aset, if_neg hk, List.map_cons, List.mem_cons] at h
      rcases h with h | h
      · left; simp [h]
      · rcases ih h with h2 | h2
        · left; simp [h2]
        · right; exact h2

theorem awf_aset {κ α : Type} [DecidableEq κ] {l : List (κ × α)} (k : κ) (v : α)
    (h : AWF l) : AWF (aset l k v) := by
  induction l with
  | nil => simp [AWF, aset]
  | cons hd t ih =>
    obtain ⟨k2, v2⟩ := hd
    simp only [AWF, List.map_cons, List.nodup_cons] at h
    by_cases hk : k2 = k
    · subst hk
      simpa [AWF, aset, List.nodup_cons] using h
    · have h2 := ih h.2
      simp only [AWF, aset, if_neg hk, List.map_cons, List.nodup_cons]
      refine ⟨fun hmem => ?_, h2⟩
      rcases mem_keys_aset hmem with h3 | h3
      · exact h.1 h3
      · exact hk h3

theorem mem_keys_aerase {κ α : Type} [DecidableEq κ] {l : List (κ × α)} {k a : κ}
    (h : a ∈ (aerase l k).map Prod.fst) : a ∈ l.map Prod.fst := by
  induction l with
  | nil => simp [aerase] at h
  | cons hd t ih =>
    obtain ⟨k2, v2⟩ := hd
    by_cases hk : k2 = k
    · simp only [aerase, if_pos hk] at h
      exact List.mem_cons_of_mem _ (ih h)
    · simp only [aerase, if_neg hk, List.map_cons, List.mem_cons] at h
      rcases h with h | h
      · simp [h]
      · exact List.mem_cons_of_mem _ (ih h)

theorem awf_aerase {κ α : Type} [DecidableEq κ] {l : List (κ × α)} (k : κ)
    (h : AWF l) : AWF (aerase l k) := by
  induction l with
  | nil => simp [AWF, aerase]
  | cons hd t ih =>
    obtain ⟨k2, v2⟩ := hd
    simp only [AWF, List.map_cons, List.nodup_cons] at h
    by_cases hk : k2 = k
    · simpa [AWF, aerase, hk] using ih h.2
    · simp only [AWF, aerase, if_neg hk, List.map_cons, List.nodup_cons]
      exact ⟨fun hmem => h.1 (mem_keys_aerase hmem), ih h.2⟩

/-! ### Lemmas about the port scan -/

theorem scanPorts_eq_none (b : Nat → Bool) (n : Nat) :
    ∀ base, scanPorts b n base = none ↔ ∀ i < n, b (base + i) = false := by
  induction n with
  | zero => intro base; simp [scanPorts]
  | succ m ih =>
    intro base
    by_cases hb : b base
    · simp only [scanPorts, hb, if_true]
      constructor
      · intro h; cases h
      · intro h
        have h0 := h 0 (Nat.succ_pos m)
        simp [hb] at h0
    · simp only [scanPorts, hb, Bool.false_eq_true, if_false]
      rw [ih (base + 1)]
      constructor
      · intro h i hi
        match i with
        | 0 => simpa using hb
        | j + 1 =>
          have hj := h j (by omega)
          have harith : base + 1 + j = base + (j + 1) := by omega
          rwa [harith] at hj
      · intro h j hj
        have hk := h (j + 1) (by omega)
        have harith : base + 1 + j = base + (j + 1) := by omega
        rwa [← harith] at hk

theorem scanPorts_eq_some (b : Nat → Bool) (n : Nat) :
    ∀ base p, scanPorts b n base = some p ↔
      base ≤ p ∧ p < base + n ∧ b p = true ∧ ∀ q, base ≤ q → q < p → b q = false := by
  induction n with
  | zero =>
    intro base p
    simp only [scanPorts]
    constructor
    · intro h; cases h
    · rintro ⟨h1, h2, -, -⟩; omega
  | succ m ih =>
    intro base p
    by_cases hb : b base
    · simp only [scanPorts, hb, if_true]
      constructor
      · intro h
        have hp : base = p := by injection h
        subst hp
        exact ⟨Nat.le_refl _, by omega, hb, fun q hq1 hq2 => by omega⟩
      · rintro ⟨h1, h2, h3, h4⟩
        have hp : p = base := by
          by_contra hne
          have hlt : base < p := by omega
          have := h4 base (Nat.le_refl _) hlt
          simp [hb] at this
        rw [hp]
    · simp only [scanPorts, hb, Bool.false_eq_true, if_false]
      rw [ih (base + 1) p]
      constructor
      · rintro ⟨h1, h2, h3, h4⟩
        refine ⟨by omega, by omega, h3, fun q hq1 hq2 => ?_⟩
        by_cases hq : q = base
        · subst hq; simpa using hb
        · exact h4 q (by omega) hq2
      · rintro ⟨h1, h2, h3, h4⟩
        have hpb : p ≠ base := by
          intro he
          rw [he] at h3
          exact hb h3
        exact ⟨by omega, by omega, h3, fun q hq1 hq2 => h4 q (by omega) hq2⟩

/-- C9: `start()` binds the HTTP listener to the first bindable port in the
contiguous range 8989..8989+127, scanning in increasing order, and raises
`SubscriptionRegistryFailed` exactly when none of the 128 ports can be
bound. -/
theorem c9_port_scan_first_bindable (bindable : Nat → Bool) :
    (startRegistry bindable = .failed ↔ ∀ i < 128, bindable (8989 + i) = false)
    ∧ (∀ p, startRegistry bindable = .ok p ↔
        8989 ≤ p ∧ p < 8989 + 128 ∧ bindable p = true ∧
          ∀ q, 8989 ≤ q → q < p → bindable q = false) := by
  have hnone : startRegistry bindable = .failed ↔ startServer bindable = none := by
    unfold startRegistry
    cases h : startServer bindable <;> simp
  have hsome : ∀ p, startRegistry bindable = .ok p ↔ startServer bindable = some p := by
    intro p
    unfold startRegistry
    cases h : startServer bindable <;> simp
  exact ⟨hnone.trans (scanPorts_eq_none bindable 128 8989),
    fun p => (hsome p).trans (scanPorts_eq_some bindable 128 8989 p)⟩

/-! ### Event dispatch (C7) and unregister (C3) -/

theorem dispatchList_eq_filter (l : List (Option String × Nat)) (d : Device) (ty : String)
    (v : Option String) :
    dispatchList l d ty v =
      (l.filter (fun p => decide (p.1 = none ∨ p.1 = some ty))).map (fun p => (p.2, d, ty, v)) := by
  induction l with
  | nil => rfl
  | cons hd t ih =>
    obtain ⟨tf, cb⟩ := hd
    cases tf with
    | none => simp [dispatchList, ih, List.filter_cons]
    | some f =>
      by_cases hf : ty = f
      · subst hf
        simp [dispatchList, ih, List.filter_cons]
      · simp [dispatchList, hf, ih, List.filter_cons, Ne.symm hf]

/-- C7: `event(device, type_, value)` invokes, synchronously and in the order
the callbacks were appended by `on`, exactly those callbacks registered for
the device's serial number whose filter is `None` or equals the event type,
passing `(device, type_, value)` to each; and `on` appends `(type_filter,
callback)` at the end of the device's callback list. -/
theorem c7_event_dispatch_order (st : RegState) (d : Device) (ty : String) (v : Option String)
    (tf : Option String) (cb : Nat) :
    eventCallbacks st d ty v =
      ((alookupD st.callbacks d.serialnumber []).filter
        (fun p => decide (p.1 = none ∨ p.1 = some ty))).map (fun p => (p.2, d, ty, v))
    ∧ alookup (onCallback st d tf cb).callbacks d.serialnumber =
        some (alookupD st.callbacks d.serialnumber [] ++ [(tf, cb)]) := by
  refine ⟨dispatchList_eq_filter _ _ _ _, ?_⟩
  simp [onCallback, alookup_aset_self]

/-- C3: `unregister(d)` does remove `d`'s callback entries and timer entries
(first and third conjuncts), but it raises an uncaught `KeyError` from
`self.devices[device.host]` exactly when `d`'s host is absent from the device
table — e.g. when the device was never registered, or on a second
`unregister` — instead of being a no-op; the final conjunct exhibits the
failing run on a registry with no registered device. -/
theorem c3_unregister_keyerror :
    (∀ (st : RegState) (d : Device),
      ((unregister st d).1 = true ↔ alookup st.devices d.host = none)
      ∧ alookup (unregister st d).2.callbacks d.serialnumber = none
      ∧ alookup (unregister st d).2.events d.serialnumber = none
      ∧ ((unregister st d).1 = false →
          alookup (unregister st d).2.devices d.host = none))
    ∧ (unregister { devices := [], callbacks := [], events := [] } exDevice).1 = true := by
  refine ⟨fun st d => ?_, by decide⟩
  unfold unregister
  cases h : alookup st.devices d.host with
  | none => simp [alookup_aerase_self]
  | some dev => simp [alookup_aerase_self]

theorem mem_aerase {κ α : Type} [DecidableEq κ] {l : List (κ × α)} {k : κ} {p : κ × α}
    (h : p ∈ aerase l k) : p ∈ l := by
  induction l with
  | nil => simp [aerase] at h
  | cons hd t ih =>
    obtain ⟨k2, v2⟩ := hd
    by_cases hk : k2 = k
    · simp only [aerase, if_pos hk] at h
      exact List.mem_cons_of_mem _ (ih h)
    · simp only [aerase, if_neg hk, List.mem_cons] at h
      rcases h with h | h
      · simp [h]
      · exact List.mem_cons_of_mem _ (ih h)

theorem wfe_aerase (ev : EventsMap) (k : String) (h : WFE ev) : WFE (aerase ev k) :=
  ⟨awf_aerase k h.1, fun p hp => h.2 p (mem_aerase hp)⟩

theorem wfe_schedule (ev : EventsMap) (serial : String) (fn : UrlFn) (e : TimerEntry)
    (h : WFE ev) : WFE (schedule ev serial fn e) := by
  unfold schedule
  cases hl : alookup ev serial with
  | none => exact h
  | some inner =>
    refine ⟨awf_aset _ _ h.1, fun p hp => ?_⟩
    rcases mem_aset hp with hp2 | hp2
    · exact h.2 p hp2
    · rw [hp2]
      exact awf_aset _ _ (h.2 (serial, inner) (alookup_mem hl))

theorem wfe_register (st : RegState) (d : Device) (h : WFE st.events) :
    WFE (register st d).events := by
  have h0 : WFE (aset st.events d.serialnumber []) := by
    refine ⟨awf_aset _ _ h.1, fun p hp => ?_⟩
    rcases mem_aset hp with hp2 | hp2
    · exact h.2 p hp2
    · rw [hp2]; simp [AWF]
  have h1 := wfe_schedule _ d.serialnumber .basic ⟨0, none, 0⟩ h0
  unfold register
  by_cases hi : d.hasInsight
  · simpa [hi] using wfe_schedule _ d.serialnumber .insight ⟨0, none, 0⟩ h1
  · simpa [hi] using h1

theorem wfe_urlResubscribeWith (fresh : EventsMap → List NetResult → RunResult)
    (ev : EventsMap) (d : Device) (fn : UrlFn) (hdrs : SubHeaders) (sid : Option String)
    (oracle : List NetResult)
    (hf : ∀ ev2 o2, WFE ev2 → WFE (fresh ev2 o2).events) (h : WFE ev) :
    WFE (urlResubscribeWith fresh ev d fn hdrs sid oracle).events := by
  unfold urlResubscribeWith
  dsimp only
  split
  · exact h
  · split
    · split
      · exact h
      · exact hf _ _ h
    · split
      · exact h
      · split
        · exact wfe_schedule _ _ _ _ h
        · exact h

theorem wfe_resubscribeFuel (f : Nat) (net : Net) (d : Device) (fn : UrlFn) :
    ∀ (ev : EventsMap) (sid : Option String) (retry : Nat) (oracle : List NetResult),
      WFE ev → WFE (resubscribeFuel f net ev d fn sid retry oracle).events := by
  induction f with
  | zero => intro ev sid retry oracle h; exact h
  | succ m ih =>
    intro ev sid retry oracle h
    unfold resubscribeFuel
    have hu := wfe_urlResubscribeWith (fun ev2 o2 => resubscribeFuel m net ev2 d fn none 0 o2)
      ev d fn (mkHeaders net d fn sid) sid oracle (fun ev2 o2 h2 => ih ev2 none 0 o2 h2) h
    dsimp only
    split
    · exact hu
    · exact hu
    · split
      · exact wfe_schedule _ _ _ _ hu
      · exact hu

/-- C6: after `register(d)` the timer-entry map for `d`'s serial holds exactly
one pending entry for the basic-event endpoint and one for the insight
endpoint iff the device has the insight capability (first three conjuncts);
and `register`, `unregister` and `_resubscribe` preserve the invariant of at
most one live timer handle per (serial number, endpoint) pair. -/
theorem c6_register_timer_invariant (st : RegState) (d : Device) (hwf : WFE st.events) :
    alookup (register st d).events d.serialnumber =
      some (if d.hasInsight then
              [(UrlFn.basic, ⟨0, none, 0⟩), (UrlFn.insight, ⟨0, none, 0⟩)]
            else [(UrlFn.basic, (⟨0, none, 0⟩ : TimerEntry))])
    ∧ hasTimerEntry (register st d).events d.serialnumber .basic = true
    ∧ hasTimerEntry (register st d).events d.serialnumber .insight = d.hasInsight
    ∧ WFE (register st d).events
    ∧ (∀ d2, WFE (unregister st d2).2.events)
    ∧ (∀ net fn sid r o, WFE (resubscribe net st.events d fn sid r o).events) := by
  have hlook : alookup (register st d).events d.serialnumber =
      some (if d.hasInsight then
              [(UrlFn.basic, ⟨0, none, 0⟩), (UrlFn.insight, ⟨0, none, 0⟩)]
            else [(UrlFn.basic, (⟨0, none, 0⟩ : TimerEntry))]) := by
    unfold register schedule
    by_cases hi : d.hasInsight <;>
      simp [hi, alookup_aset_self, aset]
  refine ⟨hlook, ?_, ?_, wfe_register st d hwf, ?_, ?_⟩
  · rw [hasTimerEntry, alookupD, hlook]
    by_cases hi : d.hasInsight <;> simp [hi, alookup]
  · rw [hasTimerEntry, alookupD, hlook]
    by_cases hi : d.hasInsight <;> simp [hi, alookup]
  · intro d2
    unfold unregister
    cases h : alookup st.devices d2.host <;>
      exact wfe_aerase _ _ hwf
  · intro net fn sid r o
    exact wfe_resubscribeFuel 2 net d fn st.events sid r o hwf

/-- Witness for C6 at a concrete empty registry and `exDevice`. -/
theorem c6_register_timer_invariant_witness :
    WFE (RegState.mk [] [] []).events ∧
    (alookup (register (RegState.mk [] [] []) exDevice).events exDevice.serialnumber =
      some (if exDevice.hasInsight then
              [(UrlFn.basic, ⟨0, none, 0⟩), (UrlFn.insight, ⟨0, none, 0⟩)]
            else [(UrlFn.basic, (⟨0, none, 0⟩ : TimerEntry))])
    ∧ hasTimerEntry (register (RegState.mk [] [] []) exDevice).events exDevice.serialnumber .basic = true
    ∧ hasTimerEntry (register (RegState.mk [] [] []) exDevice).events exDevice.serialnumber .insight = exDevice.hasInsight
    ∧ WFE (register (RegState.mk [] [] []) exDevice).events
    ∧ (∀ d2, WFE (unregister (RegState.mk [] [] []) d2).2.events)
    ∧ (∀ net fn sid r o, WFE (resubscribe net (RegState.mk [] [] []).events exDevice fn sid r o).events)) := by
  have hwf : WFE (RegState.mk [] [] []).events := by
    constructor
    · simp [AWF]
    · intro p hp; simp at hp
  exact ⟨hwf, c6_register_timer_invariant (RegState.mk [] [] []) exDevice hwf⟩

/-- One unfolding step of `_resubscribe` (proved by reflexivity; stated so the
fuel argument never has to be matched against a literal in proofs). -/
theorem resubscribeFuel_succ (f : Nat) (net : Net) (ev : EventsMap) (d : Device) (fn : UrlFn)
    (sid : Option String) (retry : Nat) (oracle : List NetResult) :
    resubscribeFuel (f + 1) net ev d fn sid retry oracle =
      (let hdrs := mkHeaders net d fn sid
       let inner := urlResubscribeWith (fun ev2 o2 => resubscribeFuel f net ev2 d fn none 0 o2)
         ev d fn hdrs sid oracle
       match inner.outcome with
       | .ok => { actions := inner.actions, events := inner.events, raised := false }
       | .parseError => { actions := inner.actions, events := inner.events, raised := true }
       | .netError =>
         let retry2 := retry + 1
         let recon : List Action :=
           if retry2 > 1 ∧ d.rediscoveryEnabled = true then [.reconnect] else []
         if hasTimerEntry inner.events d.serialnumber fn then
           let e : TimerEntry := { delay := 60, sid := sid, retry := retry2 }
           { actions := inner.actions ++ recon ++ [.schedEnter d.serialnumber fn e],
             events := schedule inner.events d.serialnumber fn e, raised := false }
         else
           { actions := inner.actions ++ recon, events := inner.events, raised := false }) := rfl


/-! ### The resubscription protocol claims (C1, C4, C5, C10) -/

/-- C1: for every successful (non-412) SUBSCRIBE response carrying a parseable
`TIMEOUT: Second-<n>` header, `_resubscribe` schedules the next resubscription
for the same (device, endpoint) at delay `int(n * 0.75)`, carrying forward the
SID from the response (or the previously held SID when the response has
none), and schedules nothing when the (device, endpoint) timer entry no
longer exists. -/
theorem c1_success_reschedules_75_percent (net : Net) (ev : EventsMap) (d : Device)
    (fn : UrlFn) (sidPrev : Option String) (r : Nat) (status : Nat) (thdr : String)
    (shdr : Option String) (n : Int)
    (hstatus : status ≠ 412) (hparse : parseTimeout thdr = some n) :
    resubscribe net ev d fn sidPrev r [.resp status (some thdr) shdr] =
      if hasTimerEntry ev d.serialnumber fn then
        { actions := [.subscribe (fn.url d) (mkHeaders net d fn sidPrev),
            .schedEnter d.serialnumber fn ⟨pyTrunc075 n, headerGetD shdr sidPrev, 0⟩],
          events := schedule ev d.serialnumber fn ⟨pyTrunc075 n, headerGetD shdr sidPrev, 0⟩,
          raised := false }
      else
        { actions := [.subscribe (fn.url d) (mkHeaders net d fn sidPrev)],
          events := ev, raised := false } := by
  have hcond : ¬(status = 412 ∧ pyTruthyStr sidPrev = true) := fun hc => hstatus hc.1
  show resubscribeFuel (1 + 1) net ev d fn sidPrev r _ = _
  rw [resubscribeFuel_succ]
  unfold urlResubscribeWith takeNet
  dsimp only
  rw [if_neg hcond]
  dsimp only [Option.getD]
  rw [hparse]
  by_cases he : hasTimerEntry ev d.serialnumber fn
  · simp [he]
  · simp [he]

/-- Witness for C1: a `TIMEOUT: Second-400` response yields delay 300 and
carries the returned SID forward. -/
theorem c1_success_reschedules_75_percent_witness :
    ((200 : Nat) ≠ 412 ∧ parseTimeout "Second-400" = some 400) ∧
    resubscribe exNet exEvents exDevice .basic none 0
        [.resp 200 (some "Second-400") (some "uuid:new")] =
      if hasTimerEntry exEvents exDevice.serialnumber .basic then
        { actions := [.subscribe (UrlFn.basic.url exDevice) (mkHeaders exNet exDevice .basic none),
            .schedEnter exDevice.serialnumber .basic
              ⟨pyTrunc075 400, headerGetD (some "uuid:new") none, 0⟩],
          events := schedule exEvents exDevice.serialnumber .basic
            ⟨pyTrunc075 400, headerGetD (some "uuid:new") none, 0⟩,
          raised := false }
      else
        { actions := [.subscribe (UrlFn.basic.url exDevice) (mkHeaders exNet exDevice .basic none)],
          events := exEvents, raised := false } := by
  have h1 : (200 : Nat) ≠ 412 := by decide
  have h2 : parseTimeout "Second-400" = some 400 := by decide
  exact ⟨⟨h1, h2⟩,
    c1_success_reschedules_75_percent exNet exEvents exDevice .basic none 0 200
      "Second-400" (some "uuid:new") 400 h1 h2⟩

/-- C4: a resubscribe attempt whose SUBSCRIBE request fails with a transport
error is rescheduled after exactly 60 time units only if the (device,
endpoint) timer entry still exists; the first consecutive failure (retry
counter 1) triggers no rediscovery, while any later consecutive failure with
`rediscovery_enabled` invokes the device's reconnect operation before
rescheduling. -/
theorem c4_transport_failure_retry (net : Net) (ev : EventsMap) (d : Device) (fn : UrlFn)
    (sid : Option String) (r : Nat) :
    resubscribe net ev d fn sid r [.err] =
      retryRunResult ev d fn sid r [.subscribe (fn.url d) (mkHeaders net d fn sid)]
    ∧ (Action.reconnect ∈ (resubscribe net ev d fn sid r [.err]).actions ↔
        r + 1 > 1 ∧ d.rediscoveryEnabled = true)
    ∧ (Action.schedEnter d.serialnumber fn ⟨60, sid, r + 1⟩ ∈
        (resubscribe net ev d fn sid r [.err]).actions ↔
        hasTimerEntry ev d.serialnumber fn = true) := by
  have heq : resubscribe net ev d fn sid r [.err] =
      retryRunResult ev d fn sid r [.subscribe (fn.url d) (mkHeaders net d fn sid)] := by
    show resubscribeFuel (1 + 1) net ev d fn sid r _ = _
    rw [resubscribeFuel_succ]
    unfold urlResubscribeWith takeNet retryRunResult
    dsimp only
    by_cases hr : r + 1 > 1 ∧ d.rediscoveryEnabled = true <;>
      by_cases he : hasTimerEntry ev d.serialnumber fn <;>
        simp [hr, he]
  refine ⟨heq, ?_, ?_⟩ <;> rw [heq] <;> unfold retryRunResult <;> dsimp only
  · by_cases hr : r + 1 > 1 ∧ d.rediscoveryEnabled = true <;>
      by_cases he : hasTimerEntry ev d.serialnumber fn <;>
        simp [hr, he]
  · by_cases hr : r + 1 > 1 ∧ d.rediscoveryEnabled = true <;>
      by_cases he : hasTimerEntry ev d.serialnumber fn <;>
        simp [hr, he]

/-- C10: a successful SUBSCRIBE response whose `TIMEOUT` header value does not
parse as a decimal integer after removing `Second-` makes the `int()` call
raise a `ValueError` that no handler catches, so nothing is scheduled for the
(device, endpoint) and the timer map is untouched (first part, at the
concrete header `Second-abc` with a live timer entry); a response with no
`TIMEOUT` header at all falls back to the request's own default
`Second-300`, scheduling the next attempt at delay 225 (second part). -/
theorem c10_unparseable_or_missing_timeout :
    ((resubscribe exNet exEvents exDevice .basic none 0
        [.resp 200 (some "Second-abc") none]).raised = true
      ∧ (resubscribe exNet exEvents exDevice .basic none 0
          [.resp 200 (some "Second-abc") none]).actions =
          [.subscribe (UrlFn.basic.url exDevice) (mkHeaders exNet exDevice .basic none)]
      ∧ (resubscribe exNet exEvents exDevice .basic none 0
          [.resp 200 (some "Second-abc") none]).events = exEvents)
    ∧ ∀ (net : Net) (ev : EventsMap) (d : Device) (fn : UrlFn) (shdr : Option String)
        (r status : Nat),
        resubscribe net ev d fn none r [.resp status none shdr] =
          if hasTimerEntry ev d.serialnumber fn then
            { actions := [.subscribe (fn.url d) (mkHeaders net d fn none),
                .schedEnter d.serialnumber fn ⟨225, headerGetD shdr none, 0⟩],
              events := schedule ev d.serialnumber fn ⟨225, headerGetD shdr none, 0⟩,
              raised := false }
          else
            { actions := [.subscribe (fn.url d) (mkHeaders net d fn none)],
              events := ev, raised := false } := by
  refine ⟨⟨by decide, by decide, by decide⟩, ?_⟩
  intro net ev d fn shdr r status
  have hcond : ¬(status = 412 ∧ pyTruthyStr (none : Option String) = true) := by
    rintro ⟨-, hc⟩
    simp [pyTruthyStr] at hc
  show resubscribeFuel (1 + 1) net ev d fn none r _ = _
  rw [resubscribeFuel_succ]
  unfold urlResubscribeWith takeNet
  dsimp only
  rw [if_neg hcond]
  dsimp only [Option.getD, mkHeaders]
  rw [show parseTimeout "Second-300" = some 300 from by decide]
  have h225 : pyTrunc075 300 = 225 := by decide
  by_cases he : hasTimerEntry ev d.serialnumber fn <;> simp [he, h225, mkHeaders]

/-- With no SID held, `_url_resubscribe` cannot enter the 412 branch: it ends
in one of four shapes, each issuing exactly the one SUBSCRIBE request. -/
theorem urlResubscribeWith_noSid (fresh : EventsMap → List NetResult → RunResult)
    (ev : EventsMap) (d : Device) (fn : UrlFn) (hdrs : SubHeaders)
    (oracle : List NetResult) :
    urlResubscribeWith fresh ev d fn hdrs none oracle =
        ⟨[.subscribe (fn.url d) hdrs], ev, .netError⟩
    ∨ urlResubscribeWith fresh ev d fn hdrs none oracle =
        ⟨[.subscribe (fn.url d) hdrs], ev, .parseError⟩
    ∨ (∃ e, urlResubscribeWith fresh ev d fn hdrs none oracle =
        ⟨[.subscribe (fn.url d) hdrs, .schedEnter d.serialnumber fn e],
          schedule ev d.serialnumber fn e, .ok⟩)
    ∨ urlResubscribeWith fresh ev d fn hdrs none oracle =
        ⟨[.subscribe (fn.url d) hdrs], ev, .ok⟩ := by
  unfold urlResubscribeWith takeNet
  dsimp only
  cases oracle with
  | nil => left; rfl
  | cons r1 rest =>
    cases r1 with
    | err => left; rfl
    | resp status thdr shdr =>
      dsimp only
      rw [if_neg (by rintro ⟨-, hc⟩; simp [pyTruthyStr] at hc)]
      cases hp : parseTimeout (thdr.getD hdrs.timeout) with
      | none => right; left; rfl
      | some t =>
        by_cases he : hasTimerEntry ev d.serialnumber fn
        · right; right; left
          exact ⟨⟨pyTrunc075 t, headerGetD shdr none, 0⟩, by simp [he]⟩
        · right; right; right
          simp [he]

/-- A `_resubscribe` run entered with no SID always begins with the fresh
SUBSCRIBE request (CALLBACK/NT headers) and performs no further requests. -/
theorem resubscribeFuel_noSid_actions (f : Nat) (net : Net) (ev : EventsMap) (d : Device)
    (fn : UrlFn) (oracle : List NetResult) :
    ∃ tail, (resubscribeFuel (f + 1) net ev d fn none 0 oracle).actions =
      Action.subscribe (fn.url d) (mkHeaders net d fn none) :: tail
      ∧ ∀ a ∈ tail, a.isSubscribe = false ∧ a.isUnsubscribe = false := by
  rw [resubscribeFuel_succ]
  dsimp only
  rcases urlResubscribeWith_noSid (fun ev2 o2 => resubscribeFuel f net ev2 d fn none 0 o2)
      ev d fn (mkHeaders net d fn none) oracle with h | h | ⟨e, h⟩ | h <;> rw [h] <;> dsimp only
  · -- transport error: retry path with retry counter 1, no rediscovery
    rw [if_neg (show ¬((0:Nat) + 1 > 1 ∧ d.rediscoveryEnabled = true) from by
      rintro ⟨h1, -⟩; omega)]
    by_cases he : hasTimerEntry ev d.serialnumber fn
    · rw [if_pos he]
      exact ⟨[.schedEnter d.serialnumber fn ⟨60, none, 1⟩], by simp,
        by simp [Action.isSubscribe, Action.isUnsubscribe]⟩
    · rw [if_neg he]
      exact ⟨[], by simp, by simp⟩
  · exact ⟨[], by simp, by simp⟩
  · exact ⟨[.schedEnter d.serialnumber fn e], by simp,
      by simp [Action.isSubscribe, Action.isUnsubscribe]⟩
  · exact ⟨[], by simp, by simp⟩

/-- C5 counterexample: a 412 response with a held SID whose follow-up
UNSUBSCRIBE request raises a transport error.  The UNSUBSCRIBE error is not
ignored: it is caught by `_resubscribe`'s retry handler, so exactly one
SUBSCRIBE was issued (no fresh subscribe attempt follows) and a delayed
(60 time units) retry is scheduled — contradicting the claim that the
UNSUBSCRIBE is "followed immediately by a fresh subscribe attempt ... rather
than scheduling a delayed retry". -/
theorem c5_counterexample_unsubscribe_error :
    (resubscribe exNet exEvents exDevice .basic (some "uuid:stale") 0
        [.resp 412 none none, .err]).actions =
      [.subscribe (UrlFn.basic.url exDevice) (mkHeaders exNet exDevice .basic (some "uuid:stale")),
       .unsubscribe (UrlFn.basic.url exDevice) "uuid:stale",
       .schedEnter exDevice.serialnumber .basic ⟨60, some "uuid:stale", 1⟩]
    ∧ (resubscribe exNet exEvents exDevice .basic (some "uuid:stale") 0
        [.resp 412 none none, .err]).actions.countP (fun a => a.isSubscribe) = 1 := by
  constructor
  · decide
  · decide

/-- C5 (amended): on a 412 response with a (truthy) held SID, exactly one
UNSUBSCRIBE carrying that stale SID is issued and — provided the UNSUBSCRIBE
call itself returns, its HTTP status being ignored — it is immediately
followed by a fresh subscribe attempt with no SID whose headers include
`CALLBACK` and `NT: upnp:event`, with no delayed retry and no further
UNSUBSCRIBE/SUBSCRIBE requests after it; when the UNSUBSCRIBE raises a
transport error instead, the failure is handled by the ordinary retry path
(delay-60 reschedule, as in C4). -/
theorem c5_amended_412_recovery (net : Net) (ev : EventsMap) (d : Device) (fn : UrlFn)
    (s : String) (t1hdr s1hdr : Option String) (r : Nat)
    (hs : s.isEmpty = false) :
    (∀ (st2 : Nat) (t2 s2 : Option String) (o3 : List NetResult), ∃ tail,
      (resubscribe net ev d fn (some s) r
          (.resp 412 t1hdr s1hdr :: .resp st2 t2 s2 :: o3)).actions =
        Action.subscribe (fn.url d) (mkHeaders net d fn (some s)) ::
        Action.unsubscribe (fn.url d) s ::
        Action.subscribe (fn.url d) (mkHeaders net d fn none) :: tail
      ∧ (∀ a ∈ tail, a.isSubscribe = false ∧ a.isUnsubscribe = false)
      ∧ (resubscribe net ev d fn (some s) r
          (.resp 412 t1hdr s1hdr :: .resp st2 t2 s2 :: o3)).actions.countP
            (fun a => a.isUnsubscribe) = 1)
    ∧ ((mkHeaders net d fn none).sid = none
      ∧ (mkHeaders net d fn none).nt = some "upnp:event"
      ∧ (mkHeaders net d fn none).callback =
          some ("<http://" ++ net.localIp ++ ":" ++ toString net.port ++ "/"
            ++ lastPathComponent (fn.url d) ++ ">"))
    ∧ (∀ orest : List NetResult,
        resubscribe net ev d fn (some s) r (.resp 412 t1hdr s1hdr :: .err :: orest) =
          retryRunResult ev d fn (some s) r
            [.subscribe (fn.url d) (mkHeaders net d fn (some s)),
             .unsubscribe (fn.url d) s]) := by
  have htr : pyTruthyStr (some s) = true := by simp [pyTruthyStr, hs]
  refine ⟨?_, by simp [mkHeaders], ?_⟩
  · intro st2 t2 s2 o3
    show ∃ tail, (resubscribeFuel (1 + 1) net ev d fn (some s) r _).actions = _ ∧ _ ∧
      (resubscribeFuel (1 + 1) net ev d fn (some s) r _).actions.countP _ = 1
    rw [resubscribeFuel_succ]
    unfold urlResubscribeWith takeNet
    dsimp only
    rw [if_pos ⟨rfl, htr⟩]
    dsimp only
    obtain ⟨tail, htail, hreq⟩ := resubscribeFuel_noSid_actions 0 net ev d fn o3
    by_cases hrz : (resubscribeFuel 1 net ev d fn none 0 o3).raised <;>
      · simp only [hrz, if_true, if_false, Bool.false_eq_true]
        refine ⟨tail, ?_, hreq, ?_⟩
        · simp [htail]
        · simp only [htail, List.countP_cons, List.countP_append]
          have hz : tail.countP (fun a => a.isUnsubscribe) = 0 := by
            rw [List.countP_eq_zero]
            intro a ha
            simp [(hreq a ha).2]
          simp [hz, Action.isUnsubscribe, Action.isSubscribe, List.countP_cons]
          intro a ha
          exact (hreq a ha).2
  · intro orest
    show resubscribeFuel (1 + 1) net ev d fn (some s) r _ = _
    rw [resubscribeFuel_succ]
    unfold urlResubscribeWith takeNet retryRunResult
    dsimp only
    rw [if_pos ⟨rfl, htr⟩]
    dsimp only
    by_cases hr : r + 1 > 1 ∧ d.rediscoveryEnabled = true <;>
      by_cases he : hasTimerEntry ev d.serialnumber fn <;>
        simp [hr, he]

/-- Witness for C5 (amended) at concrete inputs. -/
theorem c5_amended_412_recovery_witness :
    ("uuid:stale".isEmpty = false) ∧
    ((∀ (st2 : Nat) (t2 s2 : Option String) (o3 : List NetResult), ∃ tail,
      (resubscribe exNet exEvents exDevice .basic (some "uuid:stale") 0
          (.resp 412 none none :: .resp st2 t2 s2 :: o3)).actions =
        Action.subscribe (UrlFn.basic.url exDevice) (mkHeaders exNet exDevice .basic (some "uuid:stale")) ::
        Action.unsubscribe (UrlFn.basic.url exDevice) "uuid:stale" ::
        Action.subscribe (UrlFn.basic.url exDevice) (mkHeaders exNet exDevice .basic none) :: tail
      ∧ (∀ a ∈ tail, a.isSubscribe = false ∧ a.isUnsubscribe = false)
      ∧ (resubscribe exNet exEvents exDevice .basic (some "uuid:stale") 0
          (.resp 412 none none :: .resp st2 t2 s2 :: o3)).actions.countP
            (fun a => a.isUnsubscribe) = 1)
    ∧ ((mkHeaders exNet exDevice .basic none).sid = none
      ∧ (mkHeaders exNet exDevice .basic none).nt = some "upnp:event"
      ∧ (mkHeaders exNet exDevice .basic none).callback =
          some ("<http://" ++ exNet.localIp ++ ":" ++ toString exNet.port ++ "/"
            ++ lastPathComponent (UrlFn.basic.url exDevice) ++ ">"))
    ∧ (∀ orest : List NetResult,
        resubscribe exNet exEvents exDevice .basic (some "uuid:stale") 0
            (.resp 412 none none :: .err :: orest) =
          retryRunResult exEvents exDevice .basic (some "uuid:stale") 0
            [.subscribe (UrlFn.basic.url exDevice) (mkHeaders exNet exDevice .basic (some "uuid:stale")),
             .unsubscribe (UrlFn.basic.url exDevice) "uuid:stale"])) := by
  have hs : "uuid:stale".isEmpty = false := by decide
  exact ⟨hs, c5_amended_412_recovery exNet exEvents exDevice .basic "uuid:stale" none none 0 hs⟩

/-! ### Inbound payload handling (C2) and response headers (C8) -/

/-- C2 counterexample: a NOTIFY request from a known device whose body fails
to parse as XML.  `et.fromstring` raises inside `_get_xml_from_http_body`,
nothing catches the exception, so the handler does NOT respond 200 (no
response is written at all) — contradicting the claim; no callback is
invoked. -/
theorem c2_counterexample_notify_parse_failure :
    (doNOTIFY [(exDevice.host, exDevice)] exDevice.host none).1 = none
    ∧ (doNOTIFY [(exDevice.host, exDevice)] exDevice.host none).2 = [] := by
  constructor
  · rfl
  · rfl

/-- C2 (amended): for an inbound NOTIFY or POST from a known device, a body
that parses but lacks the expected element (no namespaced `property` children
for NOTIFY, no `BinaryState` descendant for POST) yields a 200 response with
no `event()` call and no registry mutation; a body that fails XML parsing
propagates the parse exception out of the handler — no response is sent and
no `event()` call is made (the registry is likewise untouched: the handlers
never write to it). -/
theorem c2_amended_malformed_inbound (devices : List (String × Device)) (ip path : String)
    (d : Device) (doc : XmlNode)
    (hdev : alookup devices ip = some d)
    (hpath : pyEndsWith path "/upnp/control/basicevent1" = true)
    (hprops : doc.children.filter (fun c => c.tag == NS ++ "property") = [])
    (hbin : (findDescList "BinaryState" doc.children).isNone = true) :
    doNOTIFY devices ip none = (none, [])
    ∧ doNOTIFY devices ip (some doc) =
        (some (sendResponse 200 RESPONSE_SUCCESS "text/html"), [])
    ∧ doPOST devices path ip none = (none, [])
    ∧ doPOST devices path ip (some doc) =
        (some (sendResponse 200 RESPONSE_SUCCESS "text/html"), []) := by
  have hbin2 : findDescList "BinaryState" doc.children = none := by
    cases h : findDescList "BinaryState" doc.children
    · rfl
    · rw [h] at hbin; simp at hbin
  refine ⟨?_, ?_, ?_, ?_⟩
  · simp [doNOTIFY, hdev]
  · simp [doNOTIFY, hdev, hprops]
  · simp [doPOST, hpath, hdev]
  · simp [doPOST, hpath, hdev, hbin2]

/-- Witness for C2 (amended): a known sender and a parsed body with no
expected elements. -/
theorem c2_amended_malformed_inbound_witness :
    (alookup [(exDevice.host, exDevice)] exDevice.host = some exDevice
      ∧ pyEndsWith "/upnp/control/basicevent1" "/upnp/control/basicevent1" = true
      ∧ (XmlNode.elem "e:propertyset" none []).children.filter
          (fun c => c.tag == NS ++ "property") = []
      ∧ (findDescList "BinaryState" (XmlNode.elem "e:propertyset" none []).children).isNone = true)
    ∧ (doNOTIFY [(exDevice.host, exDevice)] exDevice.host none = (none, [])
      ∧ doNOTIFY [(exDevice.host, exDevice)] exDevice.host
          (some (XmlNode.elem "e:propertyset" none [])) =
          (some (sendResponse 200 RESPONSE_SUCCESS "text/html"), [])
      ∧ doPOST [(exDevice.host, exDevice)] "/upnp/control/basicevent1" exDevice.host none =
          (none, [])
      ∧ doPOST [(exDevice.host, exDevice)] "/upnp/control/basicevent1" exDevice.host
          (some (XmlNode.elem "e:propertyset" none [])) =
          (some (sendResponse 200 RESPONSE_SUCCESS "text/html"), [])) := by
  have h1 : alookup [(exDevice.host, exDevice)] exDevice.host = some exDevice := by
    simp [alookup]
  have h2 : pyEndsWith "/upnp/control/basicevent1" "/upnp/control/basicevent1" = true := by
    decide
  have h3 : (XmlNode.elem "e:propertyset" none []).children.filter
      (fun c => c.tag == NS ++ "property") = [] := rfl
  have h4 : (findDescList "BinaryState" (XmlNode.elem "e:propertyset" none []).children).isNone
      = true := by
    have h0 : findDescList "BinaryState" (XmlNode.elem "e:propertyset" none []).children
        = none := by
      simp [XmlNode.children, findDescList]
    simp [h0]
  exact ⟨⟨h1, h2, h3, h4⟩,
    c2_amended_malformed_inbound [(exDevice.host, exDevice)] exDevice.host
      "/upnp/control/basicevent1" exDevice (XmlNode.elem "e:propertyset" none [])
      h1 h2 h3 h4⟩

/-- C8 counterexample: the 200 response to `SUBSCRIBE /upnp/event/basicevent1`
carries no content-type header at all (it sets `CONTENT-LENGTH`, `TIMEOUT`,
`SID` and `Connection: close` only), contradicting the claim that every
handler response sets one. -/
theorem c8_counterexample_subscribe_no_content_type :
    (doSUBSCRIBE "/upnp/event/basicevent1").status = 200
    ∧ hasHeaderCI (doSUBSCRIBE "/upnp/event/basicevent1") "content-type" = false := by
  constructor
  · decide
  · decide

/-- C8 (amended): every response produced by the request handlers sets a
Content-Length header (case-insensitively) and a `Connection: close` header;
every response except the 200 answer to a matched
`SUBSCRIBE */upnp/event/basicevent1` also sets a Content-Type header, while
that SUBSCRIBE response instead has a zero-length body with `CONTENT-LENGTH:
0`, a fixed `TIMEOUT: Second-1801` and a fixed SID header — and no
content-type. -/
theorem c8_amended_response_headers (path ip : String) (devices : List (String × Device))
    (body : Option XmlNode) :
    respHasCLConn (doGET path) = true
    ∧ respHasCLConn (doSUBSCRIBE path) = true
    ∧ Option.all respHasCLConn (doNOTIFY devices ip body).1 = true
    ∧ Option.all respHasCLConn (doPOST devices path ip body).1 = true
    ∧ hasHeaderCI (doGET path) "content-type" = true
    ∧ Option.all (fun r => hasHeaderCI r "content-type") (doNOTIFY devices ip body).1 = true
    ∧ Option.all (fun r => hasHeaderCI r "content-type") (doPOST devices path ip body).1 = true
    ∧ hasHeaderCI (doSUBSCRIBE path) "content-type"
        = !(pyEndsWith path "/upnp/event/basicevent1")
    ∧ (("TIMEOUT", "Second-1801") ∈ (doSUBSCRIBE path).headers ↔
        pyEndsWith path "/upnp/event/basicevent1" = true)
    ∧ (("SID", "uuid:a74b23d5-34b9-4f71-9f87-bed24353f304") ∈ (doSUBSCRIBE path).headers ↔
        pyEndsWith path "/upnp/event/basicevent1" = true)
    ∧ (("CONTENT-LENGTH", "0") ∈ (doSUBSCRIBE path).headers ↔
        pyEndsWith path "/upnp/event/basicevent1" = true)
    ∧ ((doSUBSCRIBE path).body = "" ↔ pyEndsWith path "/upnp/event/basicevent1" = true) := by
  have hsend : ∀ (c : Nat) (b ct : String), respHasCLConn (sendResponse c b ct) = true := by
    intro c b ct
    have hcl : (lowerStr "Content-Length" == "content-length") = true := by decide
    simp [respHasCLConn, hasHeaderCI, sendResponse, List.any_cons, hcl, List.contains,
      List.any_cons]
  have hsendct : ∀ (c : Nat) (b ct : String),
      hasHeaderCI (sendResponse c b ct) "content-type" = true := by
    intro c b ct
    have hct : (lowerStr "Content-Type" == "content-type") = true := by decide
    simp [hasHeaderCI, sendResponse, List.any_cons, hct]
  have hnotify : ∀ r, (doNOTIFY devices ip body).1 = some r →
      ∃ c b ct, r = sendResponse c b ct := by
    intro r hr
    unfold doNOTIFY at hr
    cases hdev : alookup devices ip with
    | none =>
      rw [hdev] at hr
      exact ⟨200, RESPONSE_SUCCESS, "text/html", (Option.some.inj hr.symm).symm.symm ▸ rfl⟩
    | some dev =>
      rw [hdev] at hr
      cases body with
      | none => cases hr
      | some doc =>
        dsimp only at hr
        exact ⟨200, RESPONSE_SUCCESS, "text/html", (Option.some.inj hr).symm⟩
  have hpost : ∀ r, (doPOST devices path ip body).1 = some r →
      ∃ c b ct, r = sendResponse c b ct := by
    intro r hr
    unfold doPOST at hr
    by_cases hp : pyEndsWith path "/upnp/control/basicevent1" = true
    · rw [if_pos hp] at hr
      cases hdev : alookup devices ip with
      | none =>
        rw [hdev] at hr
        exact ⟨200, RESPONSE_SUCCESS, "text/html", (Option.some.inj hr).symm⟩
      | some dev =>
        rw [hdev] at hr
        cases body with
        | none => cases hr
        | some doc =>
          dsimp only at hr
          cases hbin : findDescList "BinaryState" doc.children with
          | none =>
            rw [hbin] at hr
            exact ⟨200, RESPONSE_SUCCESS, "text/html", (Option.some.inj hr).symm⟩
          | some el =>
            rw [hbin] at hr
            exact ⟨200, RESPONSE_SUCCESS, "text/html", (Option.some.inj hr).symm⟩
    · rw [if_neg hp] at hr
      exact ⟨404, RESPONSE_NOT_FOUND, "text/html", (Option.some.inj hr).symm⟩
  have hget : ∃ c b ct, doGET path = sendResponse c b ct := by
    unfold doGET
    by_cases hp : pyEndsWith path "/setup.xml" = true
    · exact ⟨200, VIRTUAL_SETUP_XML, "text/xml", by rw [if_pos hp]⟩
    · exact ⟨404, RESPONSE_NOT_FOUND, "text/html", by rw [if_neg hp]⟩
  obtain ⟨cg, bg, ctg, hgeq⟩ := hget
  have hallN : Option.all respHasCLConn (doNOTIFY devices ip body).1 = true := by
    cases ho : (doNOTIFY devices ip body).1 with
    | none => rfl
    | some r =>
      obtain ⟨c, b, ct, hr⟩ := hnotify r ho
      simp [Option.all, hr, hsend]
  have hallP : Option.all respHasCLConn (doPOST devices path ip body).1 = true := by
    cases ho : (doPOST devices path ip body).1 with
    | none => rfl
    | some r =>
      obtain ⟨c, b, ct, hr⟩ := hpost r ho
      simp [Option.all, hr, hsend]
  have hallNct : Option.all (fun r => hasHeaderCI r "content-type")
      (doNOTIFY devices ip body).1 = true := by
    cases ho : (doNOTIFY devices ip body).1 with
    | none => rfl
    | some r =>
      obtain ⟨c, b, ct, hr⟩ := hnotify r ho
      simp [Option.all, hr, hsendct]
  have hallPct : Option.all (fun r => hasHeaderCI r "content-type")
      (doPOST devices path ip body).1 = true := by
    cases ho : (doPOST devices path ip body).1 with
    | none => rfl
    | some r =>
      obtain ⟨c, b, ct, hr⟩ := hpost r ho
      simp [Option.all, hr, hsendct]
  by_cases hsub : pyEndsWith path "/upnp/event/basicevent1" = true
  · refine ⟨hgeq ▸ hsend cg bg ctg, ?_, hallN, hallP, hgeq ▸ hsendct cg bg ctg,
      hallNct, hallPct, ?_, ?_, ?_, ?_, ?_⟩ <;>
      simp [doSUBSCRIBE, hsub, respHasCLConn, hasHeaderCI, List.any_cons, List.contains] <;>
      decide
  · have hsub2 : pyEndsWith path "/upnp/event/basicevent1" = false := by
      cases h : pyEndsWith path "/upnp/event/basicevent1"
      · rfl
      · exact absurd h hsub
    refine ⟨hgeq ▸ hsend cg bg ctg, ?_, hallN, hallP, hgeq ▸ hsendct cg bg ctg,
      hallNct, hallPct, ?_, ?_, ?_, ?_, ?_⟩ <;>
      simp [doSUBSCRIBE, hsub2, respHasCLConn, hasHeaderCI, sendResponse, List.any_cons,
        List.contains, RESPONSE_NOT_FOUND] <;>
      decide

end PyWemo
